import Mathlib

/-!
Shallow embedding of the cloud-asset-metadata repository (src/auth.py and
src/main.py). Python strings are modelled as lists of Unicode code points
(`PyStr`); UTF-8 encoding is made explicit where the source calls
`str.encode("utf-8")`. External library behaviour that the source relies on
(passlib bcrypt, python-jose JWT decoding, bson ObjectId validation, and the
exact semantics of the two `re.match` patterns) is modelled faithfully from
the behaviour of those libraries, as noted at each definition.
-/

/-- A Python `str`: a finite sequence of Unicode code points. -/
abbrev PyStr := List Char

/-- UTF-8 encoding of a single code point, following the UTF-8 algorithm.
This models what one character contributes to `s.encode("utf-8")`. -/
def charUtf8Bytes (c : Char) : List Nat :=
  let n := c.toNat
  if n < 128 then [n]
  else if n < 2048 then [192 + n / 64, 128 + n % 64]
  else if n < 65536 then [224 + n / 4096, 128 + n / 64 % 64, 128 + n % 64]
  else [240 + n / 262144, 128 + n / 4096 % 64, 128 + n / 64 % 64, 128 + n % 64]

/-- The byte list produced by `s.encode("utf-8")`. -/
def strUtf8 (s : PyStr) : List Nat := (s.map charUtf8Bytes).flatten

/-- An HTTPException as raised by the source: a status code and a detail
string. -/
structure HTTPError where
  status : Nat
  detail : PyStr
deriving DecidableEq, Repr

/-- Model of the output of passlib bcrypt hashing: the salt together with a
digest determined by the (bcrypt-truncated) password bytes. -/
structure BcryptHash where
  salt : Nat
  digest : List Nat
deriving DecidableEq, Repr

/-- Model of `pwd_context.hash` for `CryptContext(schemes=["bcrypt"])`
(external passlib/bcrypt library): bcrypt consumes only the first 72 bytes of
the UTF-8 encoded password; the digest is modelled as an ideal collision-free
image of those bytes together with a salt. -/
def pwd_context_hash (salt : Nat) (password : PyStr) : BcryptHash :=
  ⟨salt, (strUtf8 password).take 72⟩

/-- Model of `pwd_context.verify` (external passlib/bcrypt library): the
candidate password is truncated to its first 72 UTF-8 bytes and compared
against the digest stored in the hash. -/
def pwd_context_verify (password : PyStr) (h : BcryptHash) : Bool :=
  (strUtf8 password).take 72 == h.digest

/-- The guard that appears verbatim in both `get_password_hash` and
`verify_password` (src/auth.py lines 88-89 and 94-95):
`if len(password.encode("utf-8")) > 72: password = password[:72]`.
Note that `password[:72]` slices the first 72 code points, not bytes. -/
def bcrypt_truncate (password : PyStr) : PyStr :=
  if (strUtf8 password).length > 72 then password.take 72 else password

/-- src/auth.py `get_password_hash`: truncate within bcrypt limits, then hash.
The salt chosen by passlib is made an explicit parameter. -/
def get_password_hash (salt : Nat) (password : PyStr) : BcryptHash :=
  pwd_context_hash salt (bcrypt_truncate password)

/-- src/auth.py `verify_password`: truncate within bcrypt limits, then verify. -/
def verify_password (plain_password : PyStr) (hashed_password : BcryptHash) : Bool :=
  pwd_context_verify (bcrypt_truncate plain_password) hashed_password

/-- One character of the class `[A-Za-z0-9_.@-]` from the username pattern. -/
def isUsernameChar (c : Char) : Bool :=
  ('A' ≤ c && c ≤ 'Z') || ('a' ≤ c && c ≤ 'z') || ('0' ≤ c && c ≤ '9') ||
    c == '_' || c == '.' || c == '@' || c == '-'

/-- In Python regular expressions, `$` matches at the end of the string and
also just before a single trailing newline. Both patterns in src/auth.py are
anchored `^...$` matches whose bodies cannot consume a newline, so each
pattern effectively applies to this core: the string minus at most one
trailing newline. -/
def regex_dollar_core (s : PyStr) : PyStr :=
  if s.getLast? == some '\n' then s.dropLast else s

/-- Semantics of `re.match(r"^[A-Za-z0-9_.@-]+$", u)` (src/auth.py line 107):
the core must be a nonempty run of class characters; the class itself
excludes the newline. -/
def matches_username_pattern (u : PyStr) : Bool :=
  !(regex_dollar_core u).isEmpty && (regex_dollar_core u).all isUsernameChar

/-- The 400 error raised by `validate_username` (src/auth.py lines 109-112). -/
def username_format_error : HTTPError :=
  ⟨400, ("Username can only include letters, numbers, and _ . @ - characters.".toList)⟩

/-- src/auth.py `validate_username`: returns the username unchanged when the
pattern matches, otherwise raises a 400 HTTPException. -/
def validate_username (username : PyStr) : Except HTTPError PyStr :=
  if matches_username_pattern username then .ok username
  else .error username_format_error

/-- One character of the class `[a-z]`. -/
def isLowerAscii (c : Char) : Bool := 'a' ≤ c && c ≤ 'z'

/-- One character of the class `[A-Z]`. -/
def isUpperAscii (c : Char) : Bool := 'A' ≤ c && c ≤ 'Z'

/-- One character of `\d`, modelled as an ASCII decimal digit. -/
def isDigitAscii (c : Char) : Bool := '0' ≤ c && c ≤ '9'

/-- One character of the class `[@$!%*?&]` from the password pattern. -/
def isPasswordSpecial (c : Char) : Bool :=
  c == '@' || c == '$' || c == '!' || c == '%' || c == '*' || c == '?' || c == '&'

/-- Semantics of
`re.match(r"^(?=.*[a-z])(?=.*[A-Z])(?=.*\d)(?=.*[@$!%*?&]).{8,}$", p)`
(src/auth.py line 117). `.` does not match a newline and `$` also matches
just before a single trailing newline, so the pattern accepts exactly the
strings whose core (the string minus at most one trailing newline) is
newline-free, has length at least 8, and contains a lowercase letter, an
uppercase letter, a digit and a character from `[@$!%*?&]`. -/
def matches_password_pattern (p : PyStr) : Bool :=
  decide (8 ≤ (regex_dollar_core p).length) &&
    (regex_dollar_core p).all (fun c => !(c == '\n')) &&
    (regex_dollar_core p).any isLowerAscii &&
    (regex_dollar_core p).any isUpperAscii &&
    (regex_dollar_core p).any isDigitAscii &&
    (regex_dollar_core p).any isPasswordSpecial

/-- The 400 error raised by `validate_password` (src/auth.py lines 119-125). -/
def password_policy_error : HTTPError :=
  ⟨400, ("Password must be at least 8 characters long, include one uppercase letter, one lowercase letter, one number, and one special character.".toList)⟩

/-- src/auth.py `validate_password`: returns the password unchanged when the
pattern matches, otherwise raises a 400 HTTPException. -/
def validate_password (password : PyStr) : Except HTTPError PyStr :=
  if matches_password_pattern password then .ok password
  else .error password_policy_error

/-- Decidable equality of handler results, so that concrete runs of the
embedded handlers can be checked by evaluation. -/
instance instDecEqExcept {ε α : Type} [DecidableEq ε] [DecidableEq α] :
    DecidableEq (Except ε α) := fun x y =>
  match x, y with
  | .ok a, .ok b =>
    match decEq a b with
    | isTrue h => isTrue (by rw [h])
    | isFalse h => isFalse (fun hh => h (Except.ok.inj hh))
  | .ok _, .error _ => isFalse (fun hh => Except.noConfusion hh)
  | .error _, .ok _ => isFalse (fun hh => Except.noConfusion hh)
  | .error e, .error f =>
    match decEq e f with
    | isTrue h => isTrue (by rw [h])
    | isFalse h => isFalse (fun hh => h (Except.error.inj hh))

/-- The payload claims this service puts into a JWT: a subject (from the
`data` dict `{"sub": username}`) and an expiry timestamp (the `"exp"` entry
added by `create_access_token`), either of which may be absent. Timestamps
are seconds as integers. -/
structure JWTClaims where
  sub : Option PyStr
  exp : Option Int
deriving DecidableEq, Repr

/-- A bearer token as seen by the python-jose codec: either structurally
malformed (not a well-signed JWT at all, including a tampered signature), or
a payload correctly signed with some key under some algorithm name. -/
inductive JWT where
  | malformed : JWT
  | signed (claims : JWTClaims) (key : Nat) (alg : PyStr) : JWT
deriving DecidableEq, Repr

/-- The two failure classes of python-jose `jwt.decode`:
`ExpiredSignatureError` (a subclass of `JWTError`) for an expired token, and
every other `JWTError` (malformed structure, bad signature, wrong algorithm). -/
inductive JoseError where
  | jwtError : JoseError
  | expiredSignature : JoseError
deriving DecidableEq, Repr

/-- Model of python-jose `jwt.decode(token, key, algorithms)` (external
library): the signature must verify under the given key and an algorithm in
the allowed list, otherwise `JWTError`; then, when an `exp` claim is present
and strictly in the past, `ExpiredSignatureError`; otherwise the payload is
returned. `now` is the current time in seconds. -/
def jwt_decode (token : JWT) (key : Nat) (algorithms : List PyStr) (now : Int) :
    Except JoseError JWTClaims :=
  match token with
  | .malformed => .error .jwtError
  | .signed claims k alg =>
    if k == key && algorithms.contains alg then
      match claims.exp with
      | some e => if e < now then .error .expiredSignature else .ok claims
      | none => .ok claims
    else .error .jwtError

/-- src/auth.py `create_access_token`: computes
`expire = utcnow() + (expires_delta or timedelta(minutes=ACCESS_TOKEN_EXPIRE_MINUTES))`
and signs `data ∪ {"exp": expire}` with the configured secret and algorithm.
The configuration values and the current time are explicit parameters;
`expires_delta` is in seconds. -/
def create_access_token (secret_key : Nat) (algorithm : PyStr)
    (access_token_expire_minutes : Int) (now : Int)
    (data_sub : Option PyStr) (expires_delta : Option Int) : JWT :=
  .signed ⟨data_sub, some (now + expires_delta.getD (access_token_expire_minutes * 60))⟩
    secret_key algorithm

/-- The 401 error raised by `get_current_user` when the decoded payload has
no `sub` claim (src/auth.py line 165). -/
def invalid_auth_token_error : HTTPError :=
  ⟨401, ("Invalid authentication token".toList)⟩

/-- The 401 error raised by `get_current_user` on any `JWTError`
(src/auth.py line 168). -/
def invalid_or_expired_token_error : HTTPError :=
  ⟨401, ("Invalid or expired token".toList)⟩

/-- src/auth.py `get_current_user`: decode and verify the bearer token with
the configured secret and algorithm list `[ALGORITHM]`; any `JWTError`
(including expiry) becomes a 401, and a payload without a `sub` claim
becomes a 401. On success the resolved identity is the subject string. -/
def get_current_user (secret_key : Nat) (algorithm : PyStr) (now : Int)
    (token : JWT) : Except HTTPError PyStr :=
  match jwt_decode token secret_key [algorithm] now with
  | .error _ => .error invalid_or_expired_token_error
  | .ok payload =>
    match payload.sub with
    | none => .error invalid_auth_token_error
    | some username => .ok username

/-- A document of the `users` collection: `{"username": ..., "password": ...}`
as inserted by `register_user`. -/
structure UserRecord where
  username : PyStr
  password : BcryptHash
deriving DecidableEq, Repr

/-- The 401 error raised by `login_for_access_token` both when no user record
matches the username and when the password hash does not verify
(src/auth.py line 152). -/
def invalid_credentials_error : HTTPError :=
  ⟨401, ("Invalid username or password".toList)⟩

/-- The success body of `login_for_access_token`. -/
structure TokenResponse where
  access_token : JWT
  token_type : PyStr
deriving DecidableEq, Repr

/-- src/auth.py `login_for_access_token`: validate the username format (which
raises its own 400 on failure), look the user up with
`users_collection.find_one`, check the password, and on `not user or not
verify_password(...)` raise the single 401 invalid-credentials error;
otherwise issue a token for `{"sub": username}` with the configured expiry. -/
def login_for_access_token (secret_key : Nat) (algorithm : PyStr)
    (access_token_expire_minutes : Int) (now : Int)
    (users : List UserRecord) (username password : PyStr) :
    Except HTTPError TokenResponse :=
  match validate_username username with
  | .error e => .error e
  | .ok username =>
    match users.find? (fun u => u.username == username) with
    | none => .error invalid_credentials_error
    | some user =>
      if !(verify_password password user.password) then
        .error invalid_credentials_error
      else
        .ok ⟨create_access_token secret_key algorithm access_token_expire_minutes now
              (some username) (some (access_token_expire_minutes * 60)),
            ("bearer".toList)⟩

/-- An asset document as stored in the `assets` collection: the four fields of
`AssetCreate` plus the MongoDB-generated `_id`, rendered as its 24-character
hexadecimal string form. -/
structure Asset where
  oid : PyStr
  name : PyStr
  owner : PyStr
  type_ : PyStr
  region : PyStr
deriving DecidableEq, Repr

/-- src/main.py `AssetCreate`: the request body of the create operation. The
`owner` field is ordinary client-supplied data. -/
structure AssetCreate where
  name : PyStr
  owner : PyStr
  type_ : PyStr
  region : PyStr
deriving DecidableEq, Repr

/-- src/main.py `AssetResponse`: the response shape of asset operations. -/
structure AssetResponse where
  id : PyStr
  name : PyStr
  owner : PyStr
  type_ : PyStr
  region : PyStr
deriving DecidableEq, Repr

/-- The mutable state of the service relevant to the asset handlers: the
`assets` collection, in natural (insertion) order. -/
structure AppState where
  assets : List Asset
deriving DecidableEq, Repr

/-- A hexadecimal digit, as accepted inside an ObjectId string. -/
def isHexDigitChar (c : Char) : Bool :=
  ('0' ≤ c && c ≤ '9') || ('a' ≤ c && c ≤ 'f') || ('A' ≤ c && c ≤ 'F')

/-- Model of bson `ObjectId.is_valid` on a string (external library): valid
exactly when the string is 24 hexadecimal characters. -/
def objectid_is_valid (id : PyStr) : Bool :=
  id.length == 24 && id.all isHexDigitChar

/-- src/main.py `convert_objectid`: replace the `_id` field by its string
form under the key `id`. -/
def convert_objectid (a : Asset) : AssetResponse :=
  ⟨a.oid, a.name, a.owner, a.type_, a.region⟩

/-- src/main.py `create_asset` (`POST /assets`, status 201): insert the body
verbatim into the collection (the handler has no authentication dependency
and takes no token). The `_id` generated by MongoDB for the new document is
an explicit parameter. Returns the new state and `(status, body)`. -/
def create_asset (new_oid : PyStr) (asset : AssetCreate) (st : AppState) :
    AppState × (Nat × AssetResponse) :=
  let doc : Asset := ⟨new_oid, asset.name, asset.owner, asset.type_, asset.region⟩
  (⟨st.assets ++ [doc]⟩, (201, convert_objectid doc))

/-- src/main.py `list_assets` (`GET /assets`, status 200): return every
document of the collection, converted; there is no owner filter and no
authentication dependency. -/
def list_assets (st : AppState) : Nat × List AssetResponse :=
  (200, st.assets.map convert_objectid)

/-- The 400 error raised by `get_asset` and `delete_asset` on a syntactically
invalid id (src/main.py lines 144-147 and 176-179). -/
def invalid_id_error : HTTPError := ⟨400, ("Invalid asset ID format".toList)⟩

/-- The detail of the 404 not-found error, an f-string interpolating the id;
the two quote characters the source places around the id are elided here. -/
def not_found_detail (id : PyStr) : PyStr :=
  ("Asset with id ".toList) ++ id ++ (" not found".toList)

/-- The detail of the delete success message, an f-string interpolating the
id; the two quote characters the source places around the id are elided
here. -/
def deleted_detail (id : PyStr) : PyStr :=
  ("Asset with id ".toList) ++ id ++ (" deleted successfully".toList)

/-- src/main.py `get_asset` (`GET /assets/{id}`): reject a syntactically
invalid id with 400 before any lookup; otherwise `find_one` by `_id`,
a missing document gives 404 and a found document is returned with 200 —
with no owner check and no authentication dependency. -/
def get_asset (id : PyStr) (st : AppState) : Except HTTPError (Nat × AssetResponse) :=
  if !(objectid_is_valid id) then .error invalid_id_error
  else
    match st.assets.find? (fun a => a.oid == id) with
    | none => .error ⟨404, not_found_detail id⟩
    | some a => .ok (200, convert_objectid a)

/-- src/main.py `delete_asset` (`DELETE /assets/{id}`): reject a
syntactically invalid id with 400 before any deletion; otherwise
`delete_one` by `_id` (removing the first matching document), a deleted
count of zero gives 404 — with no owner check and no authentication
dependency. Returns the new state and the response. -/
def delete_asset (id : PyStr) (st : AppState) :
    AppState × Except HTTPError (Nat × PyStr) :=
  if !(objectid_is_valid id) then (st, .error invalid_id_error)
  else
    match st.assets.find? (fun a => a.oid == id) with
    | none => (st, .error ⟨404, not_found_detail id⟩)
    | some _ =>
      (⟨st.assets.eraseP (fun a => a.oid == id)⟩,
        .ok (200, deleted_detail id))

/-- The HTTP status of a handler result, whether success or error. -/
def except_status (r : Except HTTPError (Nat × α)) : Nat :=
  match r with
  | .ok (s, _) => s
  | .error e => e.status

/-- A concrete stored asset owned by the user `alice`. -/
def alice_asset : Asset :=
  ⟨("507f1f77bcf86cd799439011".toList), ("production-web-server".toList),
    ("alice".toList), ("EC2".toList), ("us-east-1".toList)⟩

/-- A concrete collection state holding only the asset owned by `alice`. -/
def sample_state : AppState := ⟨[alice_asset]⟩

/-- A syntactically valid ObjectId that matches no stored asset. -/
def missing_oid : PyStr := ("ffffffffffffffffffffffff".toList)

/-- A fresh ObjectId for a newly inserted document. -/
def new_oid0 : PyStr := ("507f1f77bcf86cd799439012".toList)

/-- A well-signed, unexpired token for the user `bob` under secret 0 and
algorithm HS256. -/
def bob_token : JWT := .signed ⟨some ("bob".toList), some 9999⟩ 0 ("HS256".toList)

/-- A concrete create request whose body declares the owner `alice`. -/
def alice_body : AssetCreate :=
  ⟨("vm-1".toList), ("alice".toList), ("EC2".toList), ("us-east-1".toList)⟩

/-- A password of 37 two-byte characters: 74 UTF-8 bytes but only 37 code
points. -/
def wide_password : PyStr := List.replicate 37 'é'

example : matches_username_pattern ("alice.b-2@x".toList) = true := by decide
example : matches_username_pattern ("al ice".toList) = false := by decide
example : matches_username_pattern ("alice\n".toList) = true := by decide
example : matches_password_pattern ("Passw0rd!".toList) = true := by decide
example : matches_password_pattern ("password".toList) = false := by decide
example : matches_password_pattern ("Passw0rd#".toList) = false := by decide

/-- Every character contributes at least one UTF-8 byte. -/
theorem length_charUtf8Bytes_pos (c : Char) : 0 < (charUtf8Bytes c).length := by
  simp only [charUtf8Bytes]
  repeat' split
  all_goals simp

/-- UTF-8 encoding distributes over concatenation. -/
theorem strUtf8_append (a b : PyStr) : strUtf8 (a ++ b) = strUtf8 a ++ strUtf8 b := by
  simp [strUtf8]

/-- A string has at least as many UTF-8 bytes as code points. -/
theorem length_le_length_strUtf8 (p : PyStr) : p.length ≤ (strUtf8 p).length := by
  induction p with
  | nil => simp [strUtf8]
  | cons c p ih =>
    have h := length_charUtf8Bytes_pos c
    unfold strUtf8 at ih ⊢
    simp only [List.map_cons, List.flatten_cons, List.length_append, List.length_cons]
    omega

/-- The encoding of a character-level prefix is a byte-level prefix. -/
theorem strUtf8_take_leading (p : PyStr) (n : Nat) :
    List.IsPrefix (strUtf8 (p.take n)) (strUtf8 p) := by
  refine ⟨strUtf8 (p.drop n), ?_⟩
  rw [← strUtf8_append, List.take_append_drop]

/-- Prefixes of a common list agree on any initial segment they both cover. -/
theorem take_eq_of_leading {α : Type} {l₁ l₂ : List α} (h : List.IsPrefix l₁ l₂)
    (n : Nat) (hn : n ≤ l₁.length) : l₁.take n = l₂.take n := by
  obtain ⟨t, rfl⟩ := h
  exact (List.take_append_of_le_length hn).symm

/-- Taking n characters preserves the first n UTF-8 bytes, as long as the
string has at least n characters. -/
theorem take_strUtf8_take (p : PyStr) (n : Nat) (h : n ≤ p.length) :
    (strUtf8 (p.take n)).take n = (strUtf8 p).take n := by
  apply take_eq_of_leading (strUtf8_take_leading p n)
  calc n = (p.take n).length := by rw [List.length_take]; omega
    _ ≤ _ := length_le_length_strUtf8 _

/-- The character-level guard of the source functions never changes the first
72 UTF-8 bytes of the password. -/
theorem take72_strUtf8_bcrypt_truncate (p : PyStr) :
    (strUtf8 (bcrypt_truncate p)).take 72 = (strUtf8 p).take 72 := by
  unfold bcrypt_truncate
  split
  case isTrue h =>
    by_cases hp : p.length ≤ 72
    · rw [List.take_of_length_le hp]
    · exact take_strUtf8_take p 72 (by omega)
  case isFalse h => rfl

/-- An ASCII character encodes as the single byte of its code point. -/
theorem charUtf8Bytes_ascii {c : Char} (h : c.toNat < 128) :
    charUtf8Bytes c = [c.toNat] := by
  unfold charUtf8Bytes
  simp [h]

/-- For ASCII strings, character-level truncation is byte-level truncation. -/
theorem strUtf8_take_of_ascii :
    ∀ (p : PyStr), (∀ c ∈ p, c.toNat < 128) → ∀ (n : Nat),
      strUtf8 (p.take n) = (strUtf8 p).take n := by
  intro p
  induction p with
  | nil => intro _ n; simp [strUtf8]
  | cons c p ih =>
    intro h n
    cases n with
    | zero => simp [strUtf8]
    | succ n =>
      have hc : charUtf8Bytes c = [c.toNat] :=
        charUtf8Bytes_ascii (h c (List.mem_cons_self c p))
      have ih' := ih (fun d hd => h d (List.mem_cons_of_mem c hd)) n
      unfold strUtf8 at ih' ⊢
      simp only [List.take_succ_cons, List.map_cons, List.flatten_cons, hc,
        List.singleton_append, List.take_succ_cons, ih']

/-- Membership in the regex core, for characters other than the newline. -/
theorem mem_regex_dollar_core {s : PyStr} {x : Char} (hx : x ∈ s)
    (hne : x ≠ '\n') : x ∈ regex_dollar_core s := by
  unfold regex_dollar_core
  split
  case isTrue h =>
    have h' : s.getLast? = some '\n' := by simpa using h
    obtain ⟨t, rfl⟩ := List.getLast?_eq_some_iff.mp h'
    rw [List.dropLast_concat]
    rcases List.mem_append.mp hx with h1 | h1
    · exact h1
    · simp at h1; exact absurd h1 hne
  case isFalse h => exact hx

/-- Everything in the dropLast of a string is in its regex core. -/
theorem mem_regex_dollar_core_of_mem_dropLast {s : PyStr} {x : Char}
    (hx : x ∈ s.dropLast) : x ∈ regex_dollar_core s := by
  unfold regex_dollar_core
  split
  · exact hx
  · exact (List.dropLast_sublist s).subset hx

/-- Everything in the regex core is in the string itself. -/
theorem mem_of_mem_regex_dollar_core {s : PyStr} {x : Char}
    (hx : x ∈ regex_dollar_core s) : x ∈ s := by
  unfold regex_dollar_core at hx
  revert hx
  split
  · exact fun hx => (List.dropLast_sublist s).subset hx
  · exact id

/-- A bad character anywhere in the regex core forces the username pattern to
fail. -/
theorem matches_username_pattern_eq_false {u : PyStr} {x : Char}
    (hx : x ∈ regex_dollar_core u) (hbad : isUsernameChar x = false) :
    matches_username_pattern u = false := by
  unfold matches_username_pattern
  have hall : (regex_dollar_core u).all isUsernameChar = false := by
    rw [List.all_eq_false]
    exact ⟨x, hx, by simp [hbad]⟩
  simp [hall]

/-- A nonempty all-class string matches the username pattern. -/
theorem matches_username_pattern_eq_true {u : PyStr} (hne : u ≠ [])
    (hall : ∀ c ∈ u, isUsernameChar c = true) :
    matches_username_pattern u = true := by
  have hlast : (u.getLast? == some '\n') = false := by
    cases hu : u.getLast? with
    | none => rfl
    | some a =>
      have ha : a ∈ u := List.mem_of_mem_getLast? hu
      have hgood := hall a ha
      have hane : a ≠ '\n' := by
        intro hcontra
        rw [hcontra] at hgood
        exact absurd hgood (by decide)
      simpa using hane
  unfold matches_username_pattern regex_dollar_core
  rw [hlast]
  simp only [if_false, Bool.and_eq_true, Bool.not_eq_true', List.all_eq_true]
  exact ⟨List.isEmpty_eq_false.mpr hne, hall⟩

/-- The username pattern matches exactly when the regex core is nonempty and
made only of class characters. -/
theorem matches_username_pattern_iff (u : PyStr) :
    matches_username_pattern u = true ↔
      (regex_dollar_core u ≠ [] ∧ ∀ c ∈ regex_dollar_core u, isUsernameChar c = true) := by
  unfold matches_username_pattern
  simp [List.all_eq_true, List.isEmpty_eq_false]

/-- Claim C6, counterexample: the username `alice` followed by a newline
contains a character outside the allowed class, yet `validate_username`
accepts it, because the `$` anchor of the Python pattern also matches just
before a single trailing newline. -/
theorem C6_counterexample :
    validate_username ("alice\n".toList) = Except.ok ("alice\n".toList) ∧
    '\n' ∈ ("alice\n".toList) ∧ isUsernameChar '\n' = false := by
  decide

/-- Claim C6 (amended): username validation accepts a username if and only
if, after discounting at most one trailing newline, it is non-empty and
every character is a letter, digit, or one of the characters underscore,
dot, at sign, hyphen — and otherwise rejects it with the 400
invalid-username error. In particular any other character (a space, a
punctuation mark such as the exclamation mark, or a newline anywhere except
as the single final character) forces rejection, while a single trailing
newline is tolerated. -/
theorem C6_username_validation :
    (∀ u : PyStr, validate_username u = Except.ok u ↔
      (regex_dollar_core u ≠ [] ∧ ∀ c ∈ regex_dollar_core u, isUsernameChar c = true)) ∧
    (∀ u : PyStr, validate_username u = Except.error username_format_error ↔
      ¬ (regex_dollar_core u ≠ [] ∧ ∀ c ∈ regex_dollar_core u, isUsernameChar c = true)) ∧
    (∀ (u : PyStr) (x : Char), x ∈ u → x ≠ '\n' → isUsernameChar x = false →
      validate_username u = Except.error username_format_error) ∧
    (∀ u : PyStr, ' ' ∈ u → validate_username u = Except.error username_format_error) ∧
    (∀ u : PyStr, '\n' ∈ u.dropLast →
      validate_username u = Except.error username_format_error) ∧
    (∀ u : PyStr, u ≠ [] → (∀ c ∈ u, isUsernameChar c = true) →
      validate_username u = Except.ok u) ∧
    (∀ u : PyStr, u ≠ [] → (∀ c ∈ u, isUsernameChar c = true) →
      validate_username (u ++ ['\n']) = Except.ok (u ++ ['\n'])) := by
  have herr : ∀ u : PyStr, matches_username_pattern u = false →
      validate_username u = Except.error username_format_error := by
    intro u hm
    simp [validate_username, hm]
  refine ⟨?_, ?_, ?_, ?_, ?_, ?_, ?_⟩
  · intro u
    constructor
    · intro h
      by_cases hm : matches_username_pattern u = true
      · exact (matches_username_pattern_iff u).mp hm
      · exfalso
        unfold validate_username at h
        rw [if_neg hm] at h
        exact Except.noConfusion h
    · intro hrhs
      have hm := (matches_username_pattern_iff u).mpr hrhs
      simp [validate_username, hm]
  · intro u
    constructor
    · intro h hrhs
      have hm := (matches_username_pattern_iff u).mpr hrhs
      simp [validate_username, hm] at h
    · intro hrhs
      have hm : ¬ matches_username_pattern u = true :=
        fun hm => hrhs ((matches_username_pattern_iff u).mp hm)
      unfold validate_username
      rw [if_neg hm]
  · intro u x hx hne hbad
    exact herr u (matches_username_pattern_eq_false (mem_regex_dollar_core hx hne) hbad)
  · intro u hsp
    exact herr u
      (matches_username_pattern_eq_false (mem_regex_dollar_core hsp (by decide)) (by decide))
  · intro u hnl
    exact herr u
      (matches_username_pattern_eq_false (mem_regex_dollar_core_of_mem_dropLast hnl)
        (by decide))
  · intro u hne hall
    have hm := matches_username_pattern_eq_true hne hall
    simp [validate_username, hm]
  · intro u hne hall
    have hm : matches_username_pattern (u ++ ['\n']) = true := by
      unfold matches_username_pattern regex_dollar_core
      rw [List.getLast?_concat, List.dropLast_concat]
      simp only [beq_self_eq_true, if_true, Bool.and_eq_true, Bool.not_eq_true',
        List.all_eq_true]
      exact ⟨List.isEmpty_eq_false.mpr hne, hall⟩
    simp [validate_username, hm]

/-- Claim C6, witness: the documented example with a space is rejected, and
so is a username whose offending character is an exclamation mark. -/
theorem C6_witness :
    (' ' ∈ ("al ice".toList)) ∧
    validate_username ("al ice".toList) = Except.error username_format_error ∧
    ('!' ∈ ("ali!ce".toList) ∧ '!' ≠ '\n' ∧ isUsernameChar '!' = false) ∧
    validate_username ("ali!ce".toList) = Except.error username_format_error :=
  ⟨by decide,
    C6_username_validation.2.2.2.1 ("al ice".toList) (by decide),
    ⟨by decide, by decide, by decide⟩,
    C6_username_validation.2.2.1 ("ali!ce".toList) '!' (by decide) (by decide) (by decide)⟩

/-- Claim C9: the special characters the password pattern accepts are exactly
at sign, dollar, exclamation mark, percent, asterisk, question mark,
ampersand: a password with no character from that set is always rejected
with the weak-password 400 error, and each character of the set completes an
otherwise-compliant password. -/
theorem C9_password_special_set :
    (∀ p : PyStr, (∀ c ∈ p, isPasswordSpecial c = false) →
      validate_password p = Except.error password_policy_error) ∧
    (∀ c : Char, isPasswordSpecial c = true →
      validate_password (("Passw0rd".toList) ++ [c]) =
        Except.ok (("Passw0rd".toList) ++ [c])) := by
  constructor
  · intro p hp
    have hany : (regex_dollar_core p).any isPasswordSpecial = false := by
      rw [List.any_eq_false]
      intro x hx
      have hxp := hp x (mem_of_mem_regex_dollar_core hx)
      simp [hxp]
    have hm : matches_password_pattern p = false := by
      unfold matches_password_pattern
      rw [hany]
      simp
    simp [validate_password, hm]
  · intro c hc
    have hcases :
        (((((c = '@' ∨ c = '$') ∨ c = '!') ∨ c = '%') ∨ c = '*') ∨ c = '?') ∨ c = '&' := by
      simpa [isPasswordSpecial] using hc
    rcases hcases with ((((((rfl | rfl) | rfl) | rfl) | rfl) | rfl) | rfl) <;> decide

/-- Claim C9, witness: a password whose only symbol is a hash mark is
rejected even though it meets every other requirement. -/
theorem C9_witness :
    (∀ c ∈ ("Passw0rd#".toList), isPasswordSpecial c = false) ∧
    validate_password ("Passw0rd#".toList) = Except.error password_policy_error :=
  ⟨by decide, C9_password_special_set.1 ("Passw0rd#".toList) (by decide)⟩

/-- Claim C5, counterexample: a login with the badly formatted username
`al ice` fails with the 400 username-format error, while a login with an
unknown but well-formed username fails with the 401 invalid-credentials
error: the two failures are observably different, so a failed login does not
always produce the single generic invalid-credentials error. -/
theorem C5_counterexample :
    login_for_access_token 0 ("HS256".toList) 60 0 [] ("al ice".toList) ("x".toList) =
      Except.error username_format_error ∧
    login_for_access_token 0 ("HS256".toList) 60 0 [] ("zzz".toList) ("x".toList) =
      Except.error invalid_credentials_error ∧
    username_format_error ≠ invalid_credentials_error ∧
    username_format_error.status = 400 ∧ invalid_credentials_error.status = 401 := by
  decide

/-- Claim C5 (amended): among login failures, an unknown username and a
non-verifying password produce the identical single 401 invalid-credentials
error, with no observable difference; a username of invalid format, however,
fails earlier with the distinct 400 username-format error, before any user
lookup. -/
theorem C5_login_error_uniformity :
    (∀ (key : Nat) (alg : PyStr) (em now : Int) (users : List UserRecord) (u p : PyStr),
      matches_username_pattern u = true →
      users.find? (fun r => r.username == u) = none →
      login_for_access_token key alg em now users u p =
        Except.error invalid_credentials_error) ∧
    (∀ (key : Nat) (alg : PyStr) (em now : Int) (users : List UserRecord)
      (u p : PyStr) (r : UserRecord),
      matches_username_pattern u = true →
      users.find? (fun x => x.username == u) = some r →
      verify_password p r.password = false →
      login_for_access_token key alg em now users u p =
        Except.error invalid_credentials_error) ∧
    (∀ (key : Nat) (alg : PyStr) (em now : Int) (users : List UserRecord) (u p : PyStr),
      matches_username_pattern u = false →
      login_for_access_token key alg em now users u p =
        Except.error username_format_error) := by
  refine ⟨?_, ?_, ?_⟩
  · intro key alg em now users u p h1 h2
    simp [login_for_access_token, validate_username, h1, h2]
  · intro key alg em now users u p r h1 h2 h3
    simp [login_for_access_token, validate_username, h1, h2, h3]
  · intro key alg em now users u p h1
    simp [login_for_access_token, validate_username, h1]

/-- Claim C5, witness: the unknown-username case of the uniform 401 error,
at a concrete login request against an empty user collection. -/
theorem C5_witness :
    matches_username_pattern ("zzz".toList) = true ∧
    (([] : List UserRecord).find? (fun r => r.username == ("zzz".toList))) = none ∧
    login_for_access_token 0 ("HS256".toList) 60 0 [] ("zzz".toList) ("x".toList) =
      Except.error invalid_credentials_error :=
  ⟨by decide, by decide,
    C5_login_error_uniformity.1 0 ("HS256".toList) 60 0 [] ("zzz".toList) ("x".toList)
      (by decide) (by decide)⟩

/-- Claim C4, counterexample: a password of 37 two-byte characters has 74
UTF-8 bytes, which exceeds 72, yet the guard in `get_password_hash` and
`verify_password` leaves it completely unchanged (it slices the first 72
code points, and there are only 37), so the value handed to the hash
primitive is not the first 72 UTF-8 bytes of the password. -/
theorem C4_counterexample :
    (strUtf8 wide_password).length = 74 ∧
    bcrypt_truncate wide_password = wide_password ∧
    strUtf8 (bcrypt_truncate wide_password) ≠ (strUtf8 wide_password).take 72 := by
  refine ⟨by decide, by decide, by decide⟩

/-- Claim C4 (amended): when the UTF-8 encoding of the password is at most 72
bytes, both hash and verify pass it through unchanged; when it is longer,
both truncate it to its first 72 characters (code points), not bytes — a
truncation that coincides with the first 72 UTF-8 bytes exactly for ASCII
passwords. The same rule is applied by `get_password_hash` and
`verify_password` alike. -/
theorem C4_truncation_rule :
    (∀ (salt : Nat) (p : PyStr), (strUtf8 p).length ≤ 72 →
      get_password_hash salt p = pwd_context_hash salt p) ∧
    (∀ (p : PyStr) (h : BcryptHash), (strUtf8 p).length ≤ 72 →
      verify_password p h = pwd_context_verify p h) ∧
    (∀ (salt : Nat) (p : PyStr), (strUtf8 p).length > 72 →
      get_password_hash salt p = pwd_context_hash salt (p.take 72)) ∧
    (∀ (p : PyStr) (h : BcryptHash), (strUtf8 p).length > 72 →
      verify_password p h = pwd_context_verify (p.take 72) h) ∧
    (∀ p : PyStr, (∀ c ∈ p, c.toNat < 128) →
      strUtf8 (bcrypt_truncate p) = (strUtf8 p).take 72) := by
  refine ⟨?_, ?_, ?_, ?_, ?_⟩
  · intro salt p hle
    unfold get_password_hash bcrypt_truncate
    rw [if_neg (by omega)]
  · intro p h hle
    unfold verify_password bcrypt_truncate
    rw [if_neg (by omega)]
  · intro salt p hgt
    unfold get_password_hash bcrypt_truncate
    rw [if_pos hgt]
  · intro p h hgt
    unfold verify_password bcrypt_truncate
    rw [if_pos hgt]
  · intro p hascii
    unfold bcrypt_truncate
    split
    case isTrue hgt => exact strUtf8_take_of_ascii p hascii 72
    case isFalse hgt => rw [List.take_of_length_le (by omega)]

/-- Claim C4, witness: the truncation rule evaluated on a short ASCII
password. -/
theorem C4_witness :
    (∀ c ∈ ("abc".toList), c.toNat < 128) ∧
    strUtf8 (bcrypt_truncate ("abc".toList)) = (strUtf8 ("abc".toList)).take 72 :=
  ⟨by decide, C4_truncation_rule.2.2.2.2 ("abc".toList) (by decide)⟩

/-- Claim C7: verification succeeds on the password a hash was produced from,
and fails whenever the candidate password differs from the hashed password
somewhere within the first 72 UTF-8 bytes. -/
theorem C7_hash_verify_roundtrip :
    (∀ (salt : Nat) (p : PyStr),
      verify_password p (get_password_hash salt p) = true) ∧
    (∀ (salt : Nat) (p1 p2 : PyStr),
      (strUtf8 p1).take 72 ≠ (strUtf8 p2).take 72 →
      verify_password p1 (get_password_hash salt p2) = false) := by
  constructor
  · intro salt p
    simp [verify_password, get_password_hash, pwd_context_hash, pwd_context_verify]
  · intro salt p1 p2 hne
    unfold verify_password get_password_hash pwd_context_hash pwd_context_verify
    simp only [take72_strUtf8_bcrypt_truncate]
    exact beq_eq_false_iff_ne.mpr hne

/-- Claim C7, witness: two passwords differing in their first byte do not
cross-verify. -/
theorem C7_witness :
    ((strUtf8 (['a'])).take 72 ≠ (strUtf8 (['b'])).take 72) ∧
    verify_password (['a']) (get_password_hash 0 (['b'])) = false :=
  ⟨by decide, C7_hash_verify_roundtrip.2 0 (['a']) (['b']) (by decide)⟩

/-- Claim C8: `jwt_decode` fails with the invalid-token class exactly when
the token is malformed or not signed with the expected key and an allowed
algorithm; it fails with the expired class exactly when it is well signed
but carries an expiry strictly in the past. `get_current_user` additionally
rejects a well-decoded payload without a subject, and every one of its
failures is surfaced as a 401 error. -/
theorem C8_token_verification :
    (∀ (key : Nat) (algs : List PyStr) (now : Int) (tok : JWT),
      jwt_decode tok key algs now = Except.error JoseError.expiredSignature ↔
        ∃ claims alg e, tok = JWT.signed claims key alg ∧ algs.contains alg = true ∧
          claims.exp = some e ∧ e < now) ∧
    (∀ (key : Nat) (algs : List PyStr) (now : Int) (tok : JWT),
      jwt_decode tok key algs now = Except.error JoseError.jwtError ↔
        (tok = JWT.malformed ∨
          ∃ claims k alg, tok = JWT.signed claims k alg ∧
            (k == key && algs.contains alg) = false)) ∧
    (∀ (key : Nat) (alg : PyStr) (now : Int) (tok : JWT) (e : HTTPError),
      get_current_user key alg now tok = Except.error e → e.status = 401) ∧
    (∀ (key : Nat) (alg : PyStr) (now : Int) (tok : JWT) (claims : JWTClaims),
      jwt_decode tok key [alg] now = Except.ok claims → claims.sub = none →
      get_current_user key alg now tok = Except.error invalid_auth_token_error) ∧
    (∀ (key : Nat) (alg : PyStr) (now : Int) (tok : JWT) (claims : JWTClaims) (s : PyStr),
      jwt_decode tok key [alg] now = Except.ok claims → claims.sub = some s →
      get_current_user key alg now tok = Except.ok s) := by
  refine ⟨?_, ?_, ?_, ?_, ?_⟩
  · intro key algs now tok
    constructor
    · intro h
      cases tok with
      | malformed => simp [jwt_decode] at h
      | signed claims k alg =>
        simp only [jwt_decode] at h
        by_cases hka : (k == key && algs.contains alg) = true
        · rw [if_pos hka] at h
          cases hexp : claims.exp with
          | none => simp only [hexp] at h; simp at h
          | some e =>
            simp only [hexp] at h
            by_cases he : e < now
            · have hk : k = key := by
                have hsplit := (Bool.and_eq_true _ _).mp hka
                exact beq_iff_eq.mp hsplit.1
              have halg : algs.contains alg = true :=
                ((Bool.and_eq_true _ _).mp hka).2
              exact ⟨claims, alg, e, by rw [hk], halg, hexp, he⟩
            · rw [if_neg he] at h; simp at h
        · rw [if_neg hka] at h
          simp at h
    · rintro ⟨claims, alg, e, rfl, halg, hexp, he⟩
      have halg2 : alg ∈ algs := by simpa using halg
      simp [jwt_decode, halg2, hexp, he]
  · intro key algs now tok
    constructor
    · intro h
      cases tok with
      | malformed => exact Or.inl rfl
      | signed claims k alg =>
        refine Or.inr ⟨claims, k, alg, rfl, ?_⟩
        by_cases hka : (k == key && algs.contains alg) = true
        · exfalso
          simp only [jwt_decode] at h
          rw [if_pos hka] at h
          cases hexp : claims.exp with
          | none => simp only [hexp] at h; simp at h
          | some e =>
            simp only [hexp] at h
            by_cases he : e < now
            · rw [if_pos he] at h; simp at h
            · rw [if_neg he] at h; simp at h
        · exact Bool.eq_false_iff.mpr hka
    · rintro (rfl | ⟨claims, k, alg, rfl, hka⟩)
      · rfl
      · have hcase : ¬ (k = key ∧ alg ∈ algs) := by
          intro hand
          rw [hand.1] at hka
          simp [hand.2] at hka
        simp only [jwt_decode]
        rw [if_neg (fun hh => hcase (by simpa using hh))]
  · intro key alg now tok e h
    unfold get_current_user at h
    cases hd : jwt_decode tok key [alg] now with
    | error je =>
      simp only [hd, Except.error.injEq] at h
      rw [← h]
      rfl
    | ok payload =>
      simp only [hd] at h
      cases hs : payload.sub with
      | none =>
        simp only [hs, Except.error.injEq] at h
        rw [← h]
        rfl
      | some s => simp only [hs] at h; simp at h
  · intro key alg now tok claims hd hs
    unfold get_current_user
    simp only [hd, hs]
  · intro key alg now tok claims s hd hs
    unfold get_current_user
    simp only [hd, hs]

/-- Claim C8, witness: an expired token is rejected with a 401 error of the
invalid-or-expired kind, and the expiry characterization holds at a concrete
signed token whose expiry 100 lies before the current time 200. -/
theorem C8_witness :
    (jwt_decode (JWT.signed ⟨some ("bob".toList), some 100⟩ 0 ("HS256".toList)) 0
        [("HS256".toList)] 200 = Except.error JoseError.expiredSignature ↔
      ∃ claims alg e,
        JWT.signed ⟨some ("bob".toList), some 100⟩ 0 ("HS256".toList) =
          JWT.signed claims 0 alg ∧
        [("HS256".toList)].contains alg = true ∧ claims.exp = some e ∧ e < 200) ∧
    (get_current_user 0 ("HS256".toList) 200
        (JWT.signed ⟨some ("bob".toList), some 100⟩ 0 ("HS256".toList)) =
      Except.error invalid_or_expired_token_error) ∧
    invalid_or_expired_token_error.status = 401 :=
  ⟨C8_token_verification.1 0 [("HS256".toList)] 200
      (JWT.signed ⟨some ("bob".toList), some 100⟩ 0 ("HS256".toList)),
    by decide,
    C8_token_verification.2.2.1 0 ("HS256".toList) 200
      (JWT.signed ⟨some ("bob".toList), some 100⟩ 0 ("HS256".toList))
      invalid_or_expired_token_error (by decide)⟩

/-- Claim C10: a syntactically invalid ObjectId is rejected by both the get
and delete handlers with the 400 invalid-id error — not a 404 — before any
lookup or deletion, and the asset store is left unchanged. -/
theorem C10_invalid_id_rejected :
    ∀ (st : AppState) (id : PyStr), objectid_is_valid id = false →
      get_asset id st = Except.error invalid_id_error ∧
      delete_asset id st = (st, Except.error invalid_id_error) ∧
      invalid_id_error.status = 400 := by
  intro st id h
  refine ⟨?_, ?_, rfl⟩
  · unfold get_asset
    rw [if_pos (by simp [h])]
  · unfold delete_asset
    rw [if_pos (by simp [h])]

/-- Claim C10, witness: a concrete malformed id is rejected with 400 by both
handlers and the store is unchanged. -/
theorem C10_witness :
    objectid_is_valid ("nope".toList) = false ∧
    get_asset ("nope".toList) sample_state = Except.error invalid_id_error ∧
    delete_asset ("nope".toList) sample_state =
      (sample_state, Except.error invalid_id_error) ∧
    invalid_id_error.status = 400 :=
  ⟨by decide, C10_invalid_id_rejected sample_state ("nope".toList) (by decide)⟩

/-- Claim C2, counterexample: a create request carrying no bearer token of
any kind (the handler consumes none) succeeds with 201 and inserts the
document, and an equally token-free list request succeeds with 200 and
returns data — rather than failing with 401 and performing no operation. -/
theorem C2_counterexample :
    ¬ ((create_asset new_oid0 alice_body ⟨[]⟩).2.1 = 401 ∧
       (create_asset new_oid0 alice_body ⟨[]⟩).1 = (⟨[]⟩ : AppState)) ∧
    (create_asset new_oid0 alice_body ⟨[]⟩).2.1 = 201 ∧
    (create_asset new_oid0 alice_body ⟨[]⟩).1 ≠ (⟨[]⟩ : AppState) ∧
    (list_assets sample_state).1 = 200 ∧
    (list_assets sample_state).2 ≠ [] := by
  refine ⟨by decide, by decide, by decide, by decide, by decide⟩

/-- Claim C2 (amended): the asset handlers require no authentication at all:
they take no bearer token, the create and list operations are always
performed with success statuses 201 and 200, and no asset route ever
produces a 401 status. -/
theorem C2_no_authentication_required :
    ∀ (st : AppState) (new_oid : PyStr) (body : AssetCreate) (id : PyStr),
      (create_asset new_oid body st).2.1 = 201 ∧
      (create_asset new_oid body st).1.assets =
        st.assets ++ [⟨new_oid, body.name, body.owner, body.type_, body.region⟩] ∧
      (list_assets st).1 = 200 ∧
      except_status (get_asset id st) ≠ 401 ∧
      except_status (delete_asset id st).2 ≠ 401 := by
  intro st new_oid body id
  refine ⟨rfl, rfl, rfl, ?_, ?_⟩
  · unfold get_asset
    split
    · simp only [except_status, invalid_id_error]
      omega
    · split
      · simp only [except_status]
        omega
      · simp only [except_status]
        omega
  · unfold delete_asset
    split
    · simp only [except_status, invalid_id_error]
      omega
    · split
      · simp only [except_status]
        omega
      · simp only [except_status]
        omega

/-- Claim C3, counterexample: a requester whose token resolves to the
identity `bob` creates an asset whose request body declares the owner
`alice`; the stored record then has owner `alice`, not the resolved
identity of the creator, and the record then appears in every subsequent list response. -/
theorem C3_counterexample :
    get_current_user 0 ("HS256".toList) 0 bob_token = Except.ok ("bob".toList) ∧
    ((create_asset new_oid0 alice_body ⟨[]⟩).2.2).owner = ("alice".toList) ∧
    ((create_asset new_oid0 alice_body ⟨[]⟩).2.2).owner ≠ ("bob".toList) ∧
    convert_objectid
        ⟨new_oid0, alice_body.name, alice_body.owner, alice_body.type_, alice_body.region⟩ ∈
      (list_assets (create_asset new_oid0 alice_body ⟨[]⟩).1).2 := by
  refine ⟨by decide, by decide, by decide, by decide⟩

/-- Claim C3 (amended): the stored record's owner attribute equals the
`owner` field supplied in the request body — the create handler consumes no
authenticated identity — and the created record appears in every subsequent
list response, whoever asks. -/
theorem C3_owner_from_request_body :
    ∀ (new_oid : PyStr) (body : AssetCreate) (st : AppState),
      ((create_asset new_oid body st).2.2).owner = body.owner ∧
      (create_asset new_oid body st).1.assets =
        st.assets ++ [⟨new_oid, body.name, body.owner, body.type_, body.region⟩] ∧
      convert_objectid ⟨new_oid, body.name, body.owner, body.type_, body.region⟩ ∈
        (list_assets (create_asset new_oid body st).1).2 := by
  intro new_oid body st
  refine ⟨rfl, rfl, ?_⟩
  simp [list_assets, create_asset]

/-- Claim C1, counterexample: with a single stored asset owned by `alice`, a
requester identified as `bob` receives that asset from the list operation
(so the list is not filtered to the caller), and a get of alice's record
succeeds with 200 while a get of a nonexistent id fails with 404 — the two
responses are observably different, not indistinguishable. -/
theorem C1_counterexample :
    ¬ ((∀ r ∈ (list_assets sample_state).2, r.owner = ("bob".toList)) ∧
       except_status (get_asset alice_asset.oid sample_state) =
         except_status (get_asset missing_oid sample_state)) := by
  decide

/-- Claim C1 (amended): the asset handlers consult no requester identity:
the list operation returns a response record for every stored asset
regardless of owner; get and delete with a syntactically valid id succeed
with 200 on any stored record regardless of owner; and the 404 not-found
failure arises exactly for valid ids matching no stored record. -/
theorem C1_ownership_not_enforced :
    (∀ (st : AppState) (a : Asset), a ∈ st.assets →
      convert_objectid a ∈ (list_assets st).2) ∧
    (∀ (st : AppState) (a : Asset), objectid_is_valid a.oid = true → a ∈ st.assets →
      ∃ b : Asset, b ∈ st.assets ∧ b.oid = a.oid ∧
        get_asset a.oid st = Except.ok (200, convert_objectid b)) ∧
    (∀ (st : AppState) (id : PyStr), objectid_is_valid id = true →
      (∀ a ∈ st.assets, (a.oid == id) = false) →
      get_asset id st = Except.error ⟨404, not_found_detail id⟩) ∧
    (∀ (st : AppState) (id : PyStr), objectid_is_valid id = true →
      (∀ a ∈ st.assets, (a.oid == id) = false) →
      delete_asset id st = (st, Except.error ⟨404, not_found_detail id⟩)) ∧
    (∀ (st : AppState) (a : Asset), objectid_is_valid a.oid = true → a ∈ st.assets →
      (delete_asset a.oid st).2 = Except.ok (200, deleted_detail a.oid)) := by
  refine ⟨?_, ?_, ?_, ?_, ?_⟩
  · intro st a ha
    simp only [list_assets]
    exact List.mem_map_of_mem convert_objectid ha
  · intro st a hv ha
    obtain ⟨b, hb⟩ : ∃ b, st.assets.find? (fun x => x.oid == a.oid) = some b := by
      cases hf : st.assets.find? (fun x => x.oid == a.oid) with
      | none =>
        exfalso
        have hnone := List.find?_eq_none.mp hf a ha
        simp at hnone
      | some b => exact ⟨b, rfl⟩
    refine ⟨b, List.mem_of_find?_eq_some hb, by simpa using List.find?_some hb, ?_⟩
    unfold get_asset
    rw [if_neg (by simp [hv])]
    simp [hb]
  · intro st id hv hnone
    have hf : st.assets.find? (fun a => a.oid == id) = none :=
      List.find?_eq_none.mpr (fun a ha => by simp [hnone a ha])
    unfold get_asset
    rw [if_neg (by simp [hv])]
    simp [hf]
  · intro st id hv hnone
    have hf : st.assets.find? (fun a => a.oid == id) = none :=
      List.find?_eq_none.mpr (fun a ha => by simp [hnone a ha])
    unfold delete_asset
    rw [if_neg (by simp [hv])]
    simp [hf]
  · intro st a hv ha
    obtain ⟨b, hb⟩ : ∃ b, st.assets.find? (fun x => x.oid == a.oid) = some b := by
      cases hf : st.assets.find? (fun x => x.oid == a.oid) with
      | none =>
        exfalso
        have hnone := List.find?_eq_none.mp hf a ha
        simp at hnone
      | some b => exact ⟨b, rfl⟩
    unfold delete_asset
    rw [if_neg (by simp [hv])]
    simp [hb]

/-- Claim C1, witness: the record owned by `alice` is returned by the list
operation on the concrete one-asset state, whoever the requester is. -/
theorem C1_witness :
    alice_asset ∈ sample_state.assets ∧
    convert_objectid alice_asset ∈ (list_assets sample_state).2 :=
  ⟨by decide, C1_ownership_not_enforced.1 sample_state alice_asset (by decide)⟩
